import Mathlib

/-!
Verification of the tenant OpenSearch provisioning service.

The definitions below are a shallow embedding of the JavaScript sources:
  - the SQS consumer (`sqsService.js`): payload validation and the
    per-message consume/acknowledge loop body;
  - the OpenSearch client (`opensearchService.js`): policy creation,
    collection creation, and the bounded readiness poll;
  - the database service (`databaseService.js`): tenant validation, the
    transactional ready-commit, and the best-effort failure marking;
  - the orchestrator (`index.js`): `processTenantMessage`.

External I/O (AWS SDK responses, database faults) is made explicit as
oracle arguments; JavaScript exceptions become `Except` results.
-/

/-! ## Message payload validation (sqsService.js, validateMessage) -/

/-- Truthiness of an optional string field, as JavaScript's
`!messageBody[field]` sees it: `undefined`/missing and the empty string
are falsy, every other string is truthy. -/
def truthy : Option String → Bool
  | none => false
  | some s => if s = "" then false else true

/-- Character class `[0-9a-f]` with the regex's `i` flag (case-insensitive),
used by the `tenant_id` UUID pattern. -/
def isHexDigitCI (c : Char) : Bool :=
  (('0' ≤ c) && (c ≤ '9')) || (('a' ≤ c) && (c ≤ 'f')) || (('A' ≤ c) && (c ≤ 'F'))

/-- Splits a character list at every `-`, keeping empty groups, mirroring
how the UUID regex's hyphen-separated groups partition the subject. -/
def hyphenGroups : List Char → List (List Char)
  | [] => [[]]
  | c :: rest =>
    let gs := hyphenGroups rest
    if c = '-' then [] :: gs
    else
      match gs with
      | [] => [[c]]
      | g :: gs2 => (c :: g) :: gs2

/-- Test for the source's UUID regex
`^[0-9a-f]\x7b8\x7d-[0-9a-f]\x7b4\x7d-[0-9a-f]\x7b4\x7d-[0-9a-f]\x7b4\x7d-[0-9a-f]\x7b12\x7d$/i`:
five hyphen-separated groups of hex digits with lengths 8-4-4-4-12. -/
def uuidTest (s : String) : Bool :=
  match hyphenGroups s.data with
  | [a, b, c, d, e] =>
    decide (a.length = 8) && decide (b.length = 4) && decide (c.length = 4) &&
    decide (d.length = 4) && decide (e.length = 12) &&
    (a ++ b ++ c ++ d ++ e).all isHexDigitCI
  | _ => false

/-- Character class `[a-z0-9]` of the slug regex. -/
def isLowerAlnum (c : Char) : Bool :=
  (('a' ≤ c) && (c ≤ 'z')) || (('0' ≤ c) && (c ≤ '9'))

/-- Character class `[a-z0-9-]` of the slug regex's middle part. -/
def isSlugMiddleChar (c : Char) : Bool :=
  isLowerAlnum c || c = '-'

/-- Test for the source's slug regex `^[a-z0-9][a-z0-9-]\x7b1,62\x7d[a-z0-9]$`:
a leading `[a-z0-9]`, one to sixty-two `[a-z0-9-]` characters, and a
trailing `[a-z0-9]`. -/
def slugTest (s : String) : Bool :=
  match s.data with
  | [] => false
  | c0 :: rest =>
    isLowerAlnum c0 &&
    (match rest.getLast? with
     | none => false
     | some cN =>
       isLowerAlnum cN && rest.dropLast.all isSlugMiddleChar &&
       decide (2 ≤ rest.length) && decide (rest.length ≤ 63))

/-- The three fields `validateMessage` inspects on a parsed message object.
A missing property reads as `none` (JavaScript `undefined`); field values
are modelled as strings. -/
structure MsgFields where
  tenant_id : Option String
  tenant_slug : Option String
  timestamp : Option String
deriving DecidableEq

/-- The possible results of `JSON.parse` on a message body, as the consumer
code distinguishes them: `null` (typeof `object` but falsy, and any property
access on it throws), a falsy primitive (`0`, `""`, `false`), a truthy
non-object primitive, or an object carrying the inspected fields. -/
inductive ParsedBody where
  | jsNull
  | primFalsyNonNull
  | primTruthy
  | obj (fields : MsgFields)
deriving DecidableEq

/-- Embedding of `SQSService.validateMessage`: reject non-objects and falsy
values, then require each of `tenant_id`, `tenant_slug`, `timestamp` to be
truthy, then check the UUID pattern on `tenant_id` and the slug pattern on
`tenant_slug`. -/
def validateMessage : ParsedBody → Bool
  | ParsedBody.jsNull => false
  | ParsedBody.primFalsyNonNull => false
  | ParsedBody.primTruthy => false
  | ParsedBody.obj f =>
    truthy f.tenant_id && truthy f.tenant_slug && truthy f.timestamp &&
    uuidTest (f.tenant_id.getD "") && slugTest (f.tenant_slug.getD "")

/-- Modelled from the spec's validation sentence for comparison with the
code: the payload is an object whose `tenant_id` matches the UUID pattern,
whose `tenant_slug` matches the slug pattern, and whose `timestamp` field
is present (its value not otherwise validated). -/
def specStructurallyValid : ParsedBody → Bool
  | ParsedBody.obj f =>
    (match f.tenant_id with | some s => uuidTest s | none => false) &&
    (match f.tenant_slug with | some s => slugTest s | none => false) &&
    f.timestamp.isSome
  | _ => false

/-- The amended validity predicate: as `specStructurallyValid`, but the
`timestamp` field must additionally be truthy (non-empty), matching the
code's `!messageBody[field]` check. -/
def specStructurallyValidTruthyTs : ParsedBody → Bool
  | ParsedBody.obj f =>
    (match f.tenant_id with | some s => uuidTest s | none => false) &&
    (match f.tenant_slug with | some s => slugTest s | none => false) &&
    truthy f.timestamp
  | _ => false

theorem uuidTest_ne_empty {s : String} (h : uuidTest s = true) : s ≠ "" := by
  intro he
  subst he
  simp [uuidTest, hyphenGroups] at h

theorem slugTest_ne_empty {s : String} (h : slugTest s = true) : s ≠ "" := by
  intro he
  subst he
  simp [slugTest] at h

/-- A payload whose `timestamp` is present but empty: the spec-side
predicate accepts it, `validateMessage` rejects it. -/
def emptyTimestampBody : ParsedBody :=
  ParsedBody.obj
    { tenant_id := some "11111111-1111-1111-1111-111111111111"
      tenant_slug := some "acme-corp"
      timestamp := some "" }

/-- C8 counterexample: the claimed biconditional fails at a payload whose
`timestamp` field is present but holds the empty string — structurally
valid per the claim (UUID matches, slug matches, timestamp present), yet
`validateMessage` rejects it, because the code's required-field loop tests
JavaScript truthiness, not mere presence. -/
theorem c8_counterexample :
    specStructurallyValid emptyTimestampBody = true ∧
    validateMessage emptyTimestampBody = false := by
  constructor <;> decide

/-- C8 (amended): a payload passes `validateMessage` if and only if it is
an object whose `tenant_id` matches the UUID pattern, whose `tenant_slug`
matches the slug pattern, and whose `timestamp` field is present and
truthy (non-empty); presence alone does not suffice for `timestamp`. -/
theorem c8_validate_iff_amended :
    ∀ b : ParsedBody, validateMessage b = specStructurallyValidTruthyTs b := by
  intro b
  cases b with
  | jsNull => rfl
  | primFalsyNonNull => rfl
  | primTruthy => rfl
  | obj f =>
    rcases f with ⟨tid, slug, ts⟩
    cases tid with
    | none => rfl
    | some sid =>
      cases slug with
      | none =>
        simp [validateMessage, specStructurallyValidTruthyTs, truthy]
      | some sslug =>
        simp only [validateMessage, specStructurallyValidTruthyTs, Option.getD]
        by_cases hid : sid = ""
        · subst hid
          simp [truthy, uuidTest, hyphenGroups]
        · by_cases hslug : sslug = ""
          · subst hslug
            simp [truthy, slugTest]
          · simp [truthy, hid, hslug]
            by_cases hu : uuidTest sid
            · by_cases hs : slugTest sslug
              · simp [hu, hs]
              · simp [hu, hs]
            · simp [hu]

/-! ## Error values -/

/-- An error thrown by an AWS SDK call, identified (as the source does)
by its `name` and `message`. A ConflictException carries
`name = "ConflictException"`. -/
structure AwsErr where
  name : String
  message : String
deriving DecidableEq

/-- The errors that can propagate out of the embedded operations. -/
inductive PErr where
  | aws (e : AwsErr)
  | collectionCreationFailed (collectionName : String)
  | didNotBecomeActive (collectionName : String) (maxAttempts : Nat)
  | commitNotFound
  | dbError (msg : String)
deriving DecidableEq

/-! ## Queue consumer loop body (sqsService.js, startPolling) -/

/-- What became of one delivered message after one pass of the consumer
loop body. -/
inductive MessageFate where
  | deletedWithoutHandler
  | handledAndDeleted
  | keptForRedelivery
deriving DecidableEq

/-- Embedding of the per-message body of `SQSService.startPolling`.
`parse` is the outcome of `JSON.parse` on the raw body (`none` when it
throws). A parse failure is caught by the surrounding per-message
`catch`, which logs and does not delete, leaving the message for
redelivery. A parsed `null` also reaches that `catch`: the logging line
`messageBody.tenant_id` is a property access on `null` and throws before
`validateMessage` runs. Otherwise: validation failure deletes the message
without invoking the handler; a handler error leaves the message; handler
success deletes it. The returned `Bool` records whether the handler was
invoked. -/
def processOneMessage (parse : Option ParsedBody)
    (handler : ParsedBody → Except PErr Unit) : MessageFate × Bool :=
  match parse with
  | none => (MessageFate.keptForRedelivery, false)
  | some ParsedBody.jsNull => (MessageFate.keptForRedelivery, false)
  | some body =>
    if validateMessage body = true then
      match handler body with
      | Except.ok _ => (MessageFate.handledAndDeleted, true)
      | Except.error _ => (MessageFate.keptForRedelivery, true)
    else
      (MessageFate.deletedWithoutHandler, false)

/-- C3 counterexample: a message whose payload fails to parse is not
discarded — the parse error is caught by the generic per-message catch
and the message is left for redelivery, contradicting the claim that
unparseable payloads are acknowledged/removed immediately. -/
theorem c3_counterexample :
    processOneMessage none (fun _ => Except.ok ()) =
      (MessageFate.keptForRedelivery, false) := by
  rfl

/-- C3 (amended): a message that parses to a non-null value and fails the
structural field validation is deleted without invoking the handler; a
message whose payload fails to parse — or parses to `null`, which throws
on the logging property access before validation — is not deleted: the
error is caught and the event is left for redelivery, again without
invoking the handler. -/
theorem c3_amended (handler : ParsedBody → Except PErr Unit) :
    (∀ b : ParsedBody, b ≠ ParsedBody.jsNull → validateMessage b = false →
      processOneMessage (some b) handler = (MessageFate.deletedWithoutHandler, false)) ∧
    processOneMessage none handler = (MessageFate.keptForRedelivery, false) ∧
    processOneMessage (some ParsedBody.jsNull) handler =
      (MessageFate.keptForRedelivery, false) := by
  refine ⟨?_, rfl, rfl⟩
  intro b hnn hval
  cases b with
  | jsNull => exact absurd rfl hnn
  | primFalsyNonNull => simp [processOneMessage, hval]
  | primTruthy => simp [processOneMessage, hval]
  | obj f => simp [processOneMessage, hval]

/-- C3 amended witness at a concrete malformed payload (bad slug). -/
theorem c3_amended_witness :
    processOneMessage
      (some (ParsedBody.obj
        { tenant_id := some "11111111-1111-1111-1111-111111111111"
          tenant_slug := some "-bad-"
          timestamp := some "2025-01-01T00:00:00Z" }))
      (fun _ => Except.ok ()) = (MessageFate.deletedWithoutHandler, false) :=
  (c3_amended (fun _ => Except.ok ())).1
    (ParsedBody.obj
      { tenant_id := some "11111111-1111-1111-1111-111111111111"
        tenant_slug := some "-bad-"
        timestamp := some "2025-01-01T00:00:00Z" })
    (by decide) (by decide)

/-! ## OpenSearch service (opensearchService.js) -/

/-- One collection summary as returned in `collectionDetails` by the
provider's batch-get call. -/
structure CollectionDetail where
  status : String
  arn : String
  collectionEndpoint : String
deriving DecidableEq

/-- The provider's response to one `BatchGetCollectionCommand` poll:
either the send throws, or it returns a (possibly empty) details list. -/
inductive PollResp where
  | sendError (e : AwsErr)
  | resp (details : List CollectionDetail)
deriving DecidableEq

/-- What one iteration of the polling loop's `try` block does before the
inter-attempt sleep: return the collection, fall through to the next
attempt, or throw into the enclosing `catch` (either because the send
threw, or because the code itself throws on a FAILED status — a throw the
same `catch` then swallows). -/
inductive AttemptOutcome where
  | ret (c : CollectionDetail)
  | next
  | caught (e : PErr)
deriving DecidableEq

/-- Embedding of the `try` block of one `waitForCollectionActive` attempt:
an ACTIVE first detail is returned; a FAILED first detail raises
`Collection creation failed` (which the enclosing catch receives); an
empty details list or any other status falls through to the next attempt;
a send error likewise lands in the catch. -/
def pollAttemptBody (collectionName : String) : PollResp → AttemptOutcome
  | PollResp.sendError e => AttemptOutcome.caught (PErr.aws e)
  | PollResp.resp [] => AttemptOutcome.next
  | PollResp.resp (c :: _) =>
    if c.status = "ACTIVE" then AttemptOutcome.ret c
    else if c.status = "FAILED" then
      AttemptOutcome.caught (PErr.collectionCreationFailed collectionName)
    else AttemptOutcome.next

/-- The polling loop of `waitForCollectionActive`, iterating over the
remaining attempt numbers (initially `[1, ..., maxAttempts]`). On a caught
error the code rethrows `did not become active` when the current attempt
is the last one, and otherwise retries; falling off the loop raises the
same budget-exhaustion error. The second component counts status-check
calls issued. -/
def waitLoop (collectionName : String) (polls : Nat → PollResp)
    (maxAttempts : Nat) : List Nat → Except PErr CollectionDetail × Nat
  | [] => (Except.error (PErr.didNotBecomeActive collectionName maxAttempts), 0)
  | attempt :: rest =>
    match pollAttemptBody collectionName (polls attempt) with
    | AttemptOutcome.ret c => (Except.ok c, 1)
    | AttemptOutcome.next =>
      let p := waitLoop collectionName polls maxAttempts rest
      (p.1, p.2 + 1)
    | AttemptOutcome.caught _ =>
      if attempt = maxAttempts then
        (Except.error (PErr.didNotBecomeActive collectionName maxAttempts), 1)
      else
        let p := waitLoop collectionName polls maxAttempts rest
        (p.1, p.2 + 1)

/-- Embedding of `OpenSearchService.waitForCollectionActive`: run the
attempt loop for attempts `1` through `maxAttempts` (the call site uses
the default of 60). -/
def waitForCollectionActive (collectionName : String) (polls : Nat → PollResp)
    (maxAttempts : Nat) : Except PErr CollectionDetail × Nat :=
  waitLoop collectionName polls maxAttempts (List.range' 1 maxAttempts)

/-- Embedding of `OpenSearchService.getCollectionName`. -/
def getCollectionName (tenantSlug : String) : String :=
  "accreda-" ++ tenantSlug

/-- Embedding of `OpenSearchService.createEncryptionPolicy` given the
provider's response to the create-security-policy send: a
ConflictException is logged as `already exists` and treated as success;
any other error propagates. -/
def createEncryptionPolicy (collectionName : String)
    (send : Except AwsErr Unit) : Except AwsErr Unit :=
  match send with
  | Except.ok _ => Except.ok ()
  | Except.error e =>
    if e.name = "ConflictException" then Except.ok () else Except.error e

/-- Embedding of `OpenSearchService.createNetworkPolicy`: same
ConflictException handling as the encryption policy (the extra logging in
the source does not change the result). -/
def createNetworkPolicy (collectionName : String)
    (send : Except AwsErr Unit) : Except AwsErr Unit :=
  match send with
  | Except.ok _ => Except.ok ()
  | Except.error e =>
    if e.name = "ConflictException" then Except.ok () else Except.error e

/-- Embedding of `OpenSearchService.createDataAccessPolicy`: same
ConflictException handling. -/
def createDataAccessPolicy (collectionName : String) (tenantId : String)
    (send : Except AwsErr Unit) : Except AwsErr Unit :=
  match send with
  | Except.ok _ => Except.ok ()
  | Except.error e =>
    if e.name = "ConflictException" then Except.ok () else Except.error e

/-- The `status` field of `createCollectionDetail` in the provider's
response to `CreateCollectionCommand`. -/
structure CreateCollectionDetail where
  status : String
deriving DecidableEq

/-- One AWS API call issued by the provisioning sequence, recorded for
the idempotence and naming claims. -/
inductive AwsCall where
  | securityPolicy (policyType : String) (policyName : String)
  | collectionCreate (name : String) (tenantId : String) (tenantSlug : String)
  | accessPolicy (policyName : String) (tenantId : String)
  | batchGetCollection (name : String)
deriving DecidableEq

/-- The provider-side responses one run of `createCollection` can
observe, one per send in program order. -/
structure ProvisionOracle where
  encSend : Except AwsErr Unit
  netSend : Except AwsErr Unit
  createSend : Except AwsErr CreateCollectionDetail
  dataSend : Except AwsErr Unit
  polls : Nat → PollResp

/-- The value `createCollection` resolves with on success. -/
structure CollectionResult where
  arn : String
  endpoint : String
  name : String
  status : String
deriving DecidableEq

/-- Embedding of `OpenSearchService.createCollection`: encryption policy,
network policy, the `CreateCollectionCommand` send (whose errors —
ConflictException included — have no special-casing and propagate via the
outer catch's rethrow), data access policy, then the readiness poll with
the default budget of 60 attempts. Alongside the result it returns the
AWS calls issued, in order. -/
def createCollection (tenantId : String) (tenantSlug : String)
    (o : ProvisionOracle) : Except PErr CollectionResult × List AwsCall :=
  let collectionName := getCollectionName tenantSlug
  let encCall := AwsCall.securityPolicy "encryption" (collectionName ++ "-encryption")
  match createEncryptionPolicy collectionName o.encSend with
  | Except.error e => (Except.error (PErr.aws e), [encCall])
  | Except.ok _ =>
    let netCall := AwsCall.securityPolicy "network" (collectionName ++ "-network")
    match createNetworkPolicy collectionName o.netSend with
    | Except.error e => (Except.error (PErr.aws e), [encCall, netCall])
    | Except.ok _ =>
      let createCall := AwsCall.collectionCreate collectionName tenantId tenantSlug
      match o.createSend with
      | Except.error e => (Except.error (PErr.aws e), [encCall, netCall, createCall])
      | Except.ok _ =>
        let dataCall := AwsCall.accessPolicy (collectionName ++ "-access") tenantId
        match createDataAccessPolicy collectionName tenantId o.dataSend with
        | Except.error e =>
          (Except.error (PErr.aws e), [encCall, netCall, createCall, dataCall])
        | Except.ok _ =>
          let w := waitForCollectionActive collectionName o.polls 60
          let calls := [encCall, netCall, createCall, dataCall] ++
            List.replicate w.2 (AwsCall.batchGetCollection collectionName)
          match w.1 with
          | Except.error e => (Except.error e, calls)
          | Except.ok c =>
            (Except.ok
              { arn := c.arn, endpoint := c.collectionEndpoint,
                name := collectionName, status := c.status }, calls)

/-! ## Polling claims -/

theorem pollAttemptBody_ret_active {collectionName : String} {p : PollResp}
    {c : CollectionDetail}
    (h : pollAttemptBody collectionName p = AttemptOutcome.ret c) :
    c.status = "ACTIVE" := by
  cases p with
  | sendError e => simp [pollAttemptBody] at h
  | resp details =>
    cases details with
    | nil => simp [pollAttemptBody] at h
    | cons d ds =>
      simp only [pollAttemptBody] at h
      split at h
      · cases h
        assumption
      · split at h <;> cases h

theorem waitLoop_bounded_outcomes (collectionName : String)
    (polls : Nat → PollResp) (maxAttempts : Nat) :
    ∀ l : List Nat,
      (waitLoop collectionName polls maxAttempts l).2 ≤ l.length ∧
      ((∃ c, (waitLoop collectionName polls maxAttempts l).1 = Except.ok c ∧
          c.status = "ACTIVE") ∨
        (waitLoop collectionName polls maxAttempts l).1 =
          Except.error (PErr.didNotBecomeActive collectionName maxAttempts)) := by
  intro l
  induction l with
  | nil => simp [waitLoop]
  | cons a rest ih =>
    simp only [waitLoop]
    cases hp : pollAttemptBody collectionName (polls a) with
    | ret c =>
      refine ⟨by simp, Or.inl ⟨c, rfl, pollAttemptBody_ret_active hp⟩⟩
    | next =>
      exact ⟨by simpa using Nat.succ_le_succ ih.1, ih.2⟩
    | caught e =>
      by_cases ha : a = maxAttempts
      · simp [ha]
      · simp only [ha, if_false]
        exact ⟨by simpa using Nat.succ_le_succ ih.1, ih.2⟩

/-- An ACTIVE collection as the provider eventually reports it. -/
def activeDetail : CollectionDetail :=
  { status := "ACTIVE"
    arn := "arn:aws:aoss:us-east-1:625867133463:collection/abc123"
    collectionEndpoint := "https://abc123.us-east-1.aoss.amazonaws.com" }

/-- A FAILED collection as the provider reports it during the poll. -/
def failedDetail : CollectionDetail :=
  { status := "FAILED", arn := "", collectionEndpoint := "" }

/-- Poll oracle reporting FAILED on the first attempt and ACTIVE afterwards. -/
def pollsFailedThenActive : Nat → PollResp :=
  fun attempt =>
    if attempt = 1 then PollResp.resp [failedDetail]
    else PollResp.resp [activeDetail]

/-- Poll oracle reporting FAILED on every attempt. -/
def pollsAlwaysFailed : Nat → PollResp :=
  fun _ => PollResp.resp [failedDetail]

/-- C2 (code bug, evaluated at the failing input): the `throw` the code
issues on a provider-reported FAILED status sits inside the polling
loop's own `try`, so its `catch` swallows it and the loop retries. With
FAILED reported at attempt 1 and ACTIVE at attempt 2, the call happily
returns the ACTIVE collection on the second status check instead of
raising a terminal error at the first; with FAILED reported at every
attempt, all 60 attempts are consumed and the error finally raised is the
generic `did not become active after 60 attempts`, not the
`Collection creation failed` error the code meant to raise. -/
theorem c2_failed_status_retried_not_terminal :
    waitForCollectionActive "accreda-acme-corp" pollsFailedThenActive 60 =
      (Except.ok activeDetail, 2) ∧
    waitForCollectionActive "accreda-acme-corp" pollsAlwaysFailed 60 =
      (Except.error (PErr.didNotBecomeActive "accreda-acme-corp" 60), 60) := by
  constructor <;> rfl

/-- Poll oracle whose every attempt fails with a transient network error. -/
def pollsAlwaysTransientError : Nat → PollResp :=
  fun _ => PollResp.sendError { name := "TimeoutError", message := "socket hang up" }

/-- C7: the readiness poll is bounded and total — for every sequence of
provider responses it issues at most 60 status checks and produces either
an ACTIVE collection, or a provider-reported-failure error, or the
`did not become active` budget-exhaustion error (in fact only the first
and last ever occur); a transient send error is never propagated, and a
run whose every attempt hits a transient error consumes exactly the
60-attempt budget before raising the budget-exhaustion error. -/
theorem c7_poll_bounded_and_total (collectionName : String)
    (polls : Nat → PollResp) :
    (waitForCollectionActive collectionName polls 60).2 ≤ 60 ∧
    ((∃ c, (waitForCollectionActive collectionName polls 60).1 = Except.ok c ∧
        c.status = "ACTIVE") ∨
      (∃ n, (waitForCollectionActive collectionName polls 60).1 =
        Except.error (PErr.collectionCreationFailed n)) ∨
      (waitForCollectionActive collectionName polls 60).1 =
        Except.error (PErr.didNotBecomeActive collectionName 60)) ∧
    (∀ e, (waitForCollectionActive collectionName polls 60).1 ≠
        Except.error (PErr.aws e)) ∧
    waitForCollectionActive "accreda-acme-corp" pollsAlwaysTransientError 60 =
      (Except.error (PErr.didNotBecomeActive "accreda-acme-corp" 60), 60) := by
  have h := waitLoop_bounded_outcomes collectionName polls 60 (List.range' 1 60)
  refine ⟨?_, ?_, ?_, by rfl⟩
  · simpa [waitForCollectionActive] using h.1
  · rcases h.2 with ⟨c, hc, hs⟩ | he
    · exact Or.inl ⟨c, by simpa [waitForCollectionActive] using hc, hs⟩
    · exact Or.inr (Or.inr (by simpa [waitForCollectionActive] using he))
  · intro e hcontra
    rcases h.2 with ⟨c, hc, _⟩ | he
    · rw [waitForCollectionActive] at hcontra
      rw [hc] at hcontra
      cases hcontra
    · rw [waitForCollectionActive] at hcontra
      rw [he] at hcontra
      cases hcontra

/-! ## Idempotent policy steps (claim C4) -/

/-- Provision oracle in which the policy sends succeed but the
`CreateCollectionCommand` send reports that the collection already
exists. -/
def oracleConflictOnCreate : ProvisionOracle :=
  { encSend := Except.ok ()
    netSend := Except.ok ()
    createSend := Except.error
      { name := "ConflictException", message := "collection already exists" }
    dataSend := Except.ok ()
    polls := fun _ => PollResp.resp [activeDetail] }

/-- C4 counterexample: the claim fails for the resource-creation call
itself. With both policy sends succeeding and the
`CreateCollectionCommand` send raising a ConflictException, the sequence
does not treat the conflict as success: `createCollection` propagates the
ConflictException as an error and aborts — no data access policy is
created and no readiness poll is issued. -/
theorem c4_counterexample :
    (createCollection "11111111-1111-1111-1111-111111111111" "acme-corp"
        oracleConflictOnCreate).1 =
      Except.error (PErr.aws
        { name := "ConflictException", message := "collection already exists" }) ∧
    (createCollection "11111111-1111-1111-1111-111111111111" "acme-corp"
        oracleConflictOnCreate).2 =
      [AwsCall.securityPolicy "encryption" "accreda-acme-corp-encryption",
        AwsCall.securityPolicy "network" "accreda-acme-corp-network",
        AwsCall.collectionCreate "accreda-acme-corp"
          "11111111-1111-1111-1111-111111111111" "acme-corp"] := by
  constructor <;> rfl

/-- C4 (amended): the encryption policy, network policy, and data access
policy steps each treat a ConflictException (`already exists`) from the
provider as success and let the sequence continue; the
`CreateCollectionCommand` send itself has no such special-casing — a
ConflictException from it propagates out of `createCollection` as an
error. -/
theorem c4_policy_steps_conflict_is_success :
    (∀ collectionName msg, createEncryptionPolicy collectionName
      (Except.error { name := "ConflictException", message := msg }) =
        Except.ok ()) ∧
    (∀ collectionName msg, createNetworkPolicy collectionName
      (Except.error { name := "ConflictException", message := msg }) =
        Except.ok ()) ∧
    (∀ collectionName tenantId msg, createDataAccessPolicy collectionName tenantId
      (Except.error { name := "ConflictException", message := msg }) =
        Except.ok ()) ∧
    (∀ tenantId tenantSlug msg dataSend polls,
      (createCollection tenantId tenantSlug
        { encSend := Except.ok (), netSend := Except.ok ()
          createSend := Except.error { name := "ConflictException", message := msg }
          dataSend := dataSend, polls := polls }).1 =
      Except.error (PErr.aws { name := "ConflictException", message := msg })) := by
  refine ⟨fun _ _ => rfl, fun _ _ => rfl, fun _ _ _ => rfl, fun _ _ _ _ _ => rfl⟩

/-! ## Database service (databaseService.js) -/

/-- One row of `public.accreda_tenants` as the service selects it. A NULL
`opensearch_arn` is `none`; `opensearch_status` holds the resource-status
enum (`uninitialized` / `ready` / `failed`). -/
structure Tenant where
  id : String
  slug : String
  name : String
  status : String
  opensearch_arn : Option String
  opensearch_status : String
deriving DecidableEq

/-- The validation result object of `validateTenantForProvisioning`. -/
structure ValidationResult where
  isValid : Bool
  message : String
deriving DecidableEq

/-- Embedding of `DatabaseService.validateTenantForProvisioning`: reject a
missing tenant, a non-`active` domain status, a truthy (non-empty)
existing `opensearch_arn`, or an `opensearch_status` already `ready`. -/
def validateTenantForProvisioning : Option Tenant → ValidationResult
  | none => { isValid := false, message := "Tenant not found" }
  | some tenant =>
    if tenant.status ≠ "active" then
      { isValid := false
        message := "Tenant status is '" ++ tenant.status ++ "', expected 'active'" }
    else if truthy tenant.opensearch_arn then
      { isValid := false, message := "Tenant already has an OpenSearch collection" }
    else if tenant.opensearch_status = "ready" then
      { isValid := false, message := "Tenant OpenSearch status is already ready" }
    else
      { isValid := true, message := "Tenant is valid for provisioning" }

/-- Points at which the injected database fault can strike the
transactional update: the UPDATE statement itself, or the COMMIT. -/
inductive DbFault where
  | noFault
  | atUpdate
  | atCommit
deriving DecidableEq

/-- Outcome of the transactional update: the value the call resolves or
rejects with, the committed row afterwards, and the resource-status
values durably written (empty on rollback). -/
structure TxnResult where
  result : Except PErr Tenant
  db : Option Tenant
  writes : List String

/-- Embedding of `DatabaseService.updateTenantOpenSearch` over the single
row matching the given tenant id (`db`): BEGIN; run the parameterized
UPDATE setting `opensearch_arn` and `opensearch_status`; if it affects
zero rows, ROLLBACK and throw the distinct
`Tenant not found or update failed` error; on any thrown error, ROLLBACK
(leaving the committed row unchanged) and rethrow; otherwise COMMIT and
resolve with the updated row. -/
def updateTenantOpenSearch (tenantId : String) (opensearchArn : String)
    (status : String) (db : Option Tenant) (fault : DbFault) : TxnResult :=
  if fault = DbFault.atUpdate then
    { result := Except.error (PErr.dbError "update query failed")
      db := db, writes := [] }
  else
    match db with
    | none =>
      { result := Except.error PErr.commitNotFound, db := none, writes := [] }
    | some t =>
      let updated :=
        { t with opensearch_arn := some opensearchArn, opensearch_status := status }
      if fault = DbFault.atCommit then
        { result := Except.error (PErr.dbError "commit failed")
          db := some t, writes := [] }
      else
        { result := Except.ok updated, db := some updated, writes := [status] }

/-- Embedding of `DatabaseService.markTenantOpenSearchFailed` over the
single row matching the given tenant id: a best-effort single UPDATE
setting `opensearch_status` to `failed`; its own errors are caught and
never rethrown (`fault = true` models the query throwing). Returns the
row afterwards and the status values written. -/
def markTenantOpenSearchFailed (tenantId : String) (db : Option Tenant)
    (fault : Bool) : Option Tenant × List String :=
  if fault then (db, [])
  else
    match db with
    | none => (none, [])
    | some t => (some { t with opensearch_status := "failed" }, ["failed"])

/-- C6: the ready-commit runs in one transaction — a successful commit and
a thrown error are the only outcomes; when the UPDATE affects zero rows
(no tenant row) it rolls back and raises the distinct
`Tenant not found or update failed` error; and on every error path the
committed tenant row is left exactly as it was (rollback), while a
successful call commits exactly the updated row. -/
theorem c6_commit_transactional (tenantId opensearchArn status : String)
    (db : Option Tenant) (fault : DbFault) :
    (db = none → fault ≠ DbFault.atUpdate →
      (updateTenantOpenSearch tenantId opensearchArn status db fault).result =
        Except.error PErr.commitNotFound) ∧
    (∀ e, (updateTenantOpenSearch tenantId opensearchArn status db fault).result =
        Except.error e →
      (updateTenantOpenSearch tenantId opensearchArn status db fault).db = db ∧
      (updateTenantOpenSearch tenantId opensearchArn status db fault).writes = []) ∧
    (∀ t, (updateTenantOpenSearch tenantId opensearchArn status db fault).result =
        Except.ok t →
      t.opensearch_arn = some opensearchArn ∧ t.opensearch_status = status ∧
      (updateTenantOpenSearch tenantId opensearchArn status db fault).db = some t) := by
  unfold updateTenantOpenSearch
  refine ⟨?_, ?_, ?_⟩
  · intro hdb hf
    subst hdb
    simp [hf]
  · intro e he
    by_cases hf : fault = DbFault.atUpdate
    · simp [hf]
    · cases db with
      | none => simp [hf]
      | some t =>
        by_cases hc : fault = DbFault.atCommit
        · simp [hf, hc]
        · simp [hf, hc] at he
  · intro t ht
    by_cases hf : fault = DbFault.atUpdate
    · simp [hf] at ht
    · cases db with
      | none => simp [hf] at ht
      | some t0 =>
        by_cases hc : fault = DbFault.atCommit
        · simp [hf, hc] at ht
        · simp [hf, hc] at ht ⊢
          cases ht
          exact ⟨rfl, rfl, rfl⟩

/-- An active, unprovisioned tenant row used by the witnesses. -/
def freshTenant : Tenant :=
  { id := "11111111-1111-1111-1111-111111111111"
    slug := "acme-corp"
    name := "Acme Corp"
    status := "active"
    opensearch_arn := none
    opensearch_status := "uninitialized" }

/-- C6 witness: the theorem applied to a concrete missing row (yielding
the distinct not-found error with the row left absent) and to a concrete
present row (yielding the committed update). -/
theorem c6_commit_transactional_witness :
    (updateTenantOpenSearch "11111111-1111-1111-1111-111111111111"
        "arn:aws:aoss:us-east-1:625867133463:collection/abc123" "ready"
        none DbFault.noFault).result = Except.error PErr.commitNotFound ∧
    (updateTenantOpenSearch "11111111-1111-1111-1111-111111111111"
        "arn:aws:aoss:us-east-1:625867133463:collection/abc123" "ready"
        (some freshTenant) DbFault.noFault).db =
      some { freshTenant with
        opensearch_arn := some "arn:aws:aoss:us-east-1:625867133463:collection/abc123"
        opensearch_status := "ready" } := by
  constructor
  · exact (c6_commit_transactional "11111111-1111-1111-1111-111111111111"
      "arn:aws:aoss:us-east-1:625867133463:collection/abc123" "ready"
      none DbFault.noFault).1 rfl (by decide)
  · exact ((c6_commit_transactional "11111111-1111-1111-1111-111111111111"
      "arn:aws:aoss:us-east-1:625867133463:collection/abc123" "ready"
      (some freshTenant) DbFault.noFault).2.2 _ rfl).2.2

/-! ## Provisioning orchestrator (index.js, processTenantMessage) -/

/-- The destructured fields of one queue message as `processTenantMessage`
receives them after validation. -/
structure ProvisioningMessage where
  tenant_id : String
  tenant_slug : String
  timestamp : String
deriving DecidableEq

/-- Injected database faults for one orchestrator run: whether the
initial `getTenant` query throws, where (if anywhere) the transactional
commit fails, and whether the best-effort failure-marking query throws. -/
structure OrchFaults where
  getTenantFault : Bool
  commitFault : DbFault
  markFault : Bool

/-- Result of one `processTenantMessage` run: whether it resolved or
rejected, the committed tenant row afterwards, the AWS calls issued, and
the resource-status values durably written to the row. -/
structure ProcessOutcome where
  result : Except PErr Unit
  db : Option Tenant
  awsCalls : List AwsCall
  statusWrites : List String

/-- Embedding of `processTenantMessage`. `db` is the tenant row matching
`msg.tenant_id` (or `none`). Fetch the tenant; validate; on a failed
validation log and resolve without throwing (the idempotent no-op path);
otherwise create the collection using the slug from the fetched row, then
commit `ready` with the collection ARN. Any error from the fetch, the
provisioning sequence, or the commit is caught once: the tenant is
best-effort marked `failed` (that call's own errors are swallowed) and
the original error is rethrown. -/
def processTenantMessage (msg : ProvisioningMessage) (db : Option Tenant)
    (o : ProvisionOracle) (f : OrchFaults) : ProcessOutcome :=
  if f.getTenantFault then
    let m := markTenantOpenSearchFailed msg.tenant_id db f.markFault
    { result := Except.error (PErr.dbError "Failed to fetch tenant")
      db := m.1, awsCalls := [], statusWrites := m.2 }
  else if (validateTenantForProvisioning db).isValid = false then
    { result := Except.ok (), db := db, awsCalls := [], statusWrites := [] }
  else
    match db with
    | none =>
      -- validateTenantForProvisioning rejects a missing tenant, so this
      -- branch cannot be reached with a false validation test above.
      { result := Except.ok (), db := none, awsCalls := [], statusWrites := [] }
    | some tenant =>
      let c := createCollection msg.tenant_id tenant.slug o
      match c.1 with
      | Except.error e =>
        let m := markTenantOpenSearchFailed msg.tenant_id (some tenant) f.markFault
        { result := Except.error e, db := m.1, awsCalls := c.2, statusWrites := m.2 }
      | Except.ok col =>
        let u := updateTenantOpenSearch msg.tenant_id col.arn "ready"
          (some tenant) f.commitFault
        match u.result with
        | Except.error e =>
          let m := markTenantOpenSearchFailed msg.tenant_id u.db f.markFault
          { result := Except.error e, db := m.1, awsCalls := c.2
            statusWrites := u.writes ++ m.2 }
        | Except.ok _ =>
          { result := Except.ok (), db := u.db, awsCalls := c.2
            statusWrites := u.writes }

/-! ## Helper lemmas about the embedded operations -/

theorem validate_none_reject :
    (validateTenantForProvisioning none).isValid = false := rfl

theorem validate_some_isValid_iff (t : Tenant) :
    (validateTenantForProvisioning (some t)).isValid = true ↔
      t.status = "active" ∧ truthy t.opensearch_arn = false ∧
        t.opensearch_status ≠ "ready" := by
  simp only [validateTenantForProvisioning]
  by_cases h1 : t.status = "active"
  · by_cases h2 : truthy t.opensearch_arn
    · simp [h1, h2]
    · by_cases h3 : t.opensearch_status = "ready"
      · simp [h1, h2, h3]
      · simp [h1, h2, h3]
  · simp [h1]

theorem validate_reject_of_conditions {db : Option Tenant}
    (h : db = none ∨ ∃ t, db = some t ∧
      (t.status ≠ "active" ∨ truthy t.opensearch_arn = true ∨
        t.opensearch_status = "ready")) :
    (validateTenantForProvisioning db).isValid = false := by
  rcases h with h | ⟨t, hdb, hcond⟩
  · subst h
    rfl
  · subst hdb
    rcases Bool.eq_false_or_eq_true (validateTenantForProvisioning (some t)).isValid
      with hv | hv
    · rcases (validate_some_isValid_iff t).mp hv with ⟨ha, harn, hos⟩
      rcases hcond with hc | hc | hc
      · exact absurd ha hc
      · rw [harn] at hc
        cases hc
      · exact absurd hc hos
    · exact hv

theorem mark_writes_cases (tenantId : String) (db : Option Tenant) (fault : Bool) :
    (markTenantOpenSearchFailed tenantId db fault).2 = [] ∨
    (markTenantOpenSearchFailed tenantId db fault).2 = ["failed"] := by
  unfold markTenantOpenSearchFailed
  by_cases hf : fault
  · simp [hf]
  · cases db <;> simp [hf]

theorem update_error_rolled_back {tenantId opensearchArn status : String}
    {db : Option Tenant} {fault : DbFault} {e : PErr}
    (h : (updateTenantOpenSearch tenantId opensearchArn status db fault).result =
      Except.error e) :
    (updateTenantOpenSearch tenantId opensearchArn status db fault).db = db ∧
    (updateTenantOpenSearch tenantId opensearchArn status db fault).writes = [] := by
  unfold updateTenantOpenSearch at h ⊢
  by_cases hf : fault = DbFault.atUpdate
  · simp [hf]
  · cases db with
    | none => simp [hf]
    | some t =>
      by_cases hc : fault = DbFault.atCommit
      · simp [hf, hc]
      · simp [hf, hc] at h

theorem update_ok_writes {tenantId opensearchArn status : String}
    {db : Option Tenant} {fault : DbFault} {t : Tenant}
    (h : (updateTenantOpenSearch tenantId opensearchArn status db fault).result =
      Except.ok t) :
    (updateTenantOpenSearch tenantId opensearchArn status db fault).writes =
      [status] := by
  unfold updateTenantOpenSearch at h ⊢
  by_cases hf : fault = DbFault.atUpdate
  · simp [hf] at h
  · cases db with
    | none => simp [hf] at h
    | some t0 =>
      by_cases hc : fault = DbFault.atCommit
      · simp [hf, hc] at h
      · simp [hf, hc]

/-! ## Claim C1: the reject path is an idempotent no-op -/

/-- C1: for an event whose tenant row is absent, or not `active`, or
already carrying a truthy resource reference, or already `ready`, the
handler resolves without error, issues no provisioning calls, writes
nothing, and leaves the tenant row unchanged; and the consumer loop
deletes any message whose handler resolves, so the event is removed from
the queue. -/
theorem c1_reject_path_is_idempotent_noop (msg : ProvisioningMessage)
    (db : Option Tenant) (o : ProvisionOracle) (f : OrchFaults)
    (hfetch : f.getTenantFault = false)
    (hreject : db = none ∨ ∃ t, db = some t ∧
      (t.status ≠ "active" ∨ truthy t.opensearch_arn = true ∨
        t.opensearch_status = "ready")) :
    (processTenantMessage msg db o f).result = Except.ok () ∧
    (processTenantMessage msg db o f).db = db ∧
    (processTenantMessage msg db o f).awsCalls = [] ∧
    (processTenantMessage msg db o f).statusWrites = [] ∧
    (∀ (handler : ParsedBody → Except PErr Unit) (b : ParsedBody),
      validateMessage b = true → handler b = Except.ok () →
      processOneMessage (some b) handler = (MessageFate.handledAndDeleted, true)) := by
  have hval := validate_reject_of_conditions hreject
  refine ⟨?_, ?_, ?_, ?_, ?_⟩
  · simp [processTenantMessage, hfetch, hval]
  · simp [processTenantMessage, hfetch, hval]
  · simp [processTenantMessage, hfetch, hval]
  · simp [processTenantMessage, hfetch, hval]
  · intro handler b hb hh
    cases b with
    | jsNull => simp [validateMessage] at hb
    | primFalsyNonNull => simp [processOneMessage, hb, hh]
    | primTruthy => simp [processOneMessage, hb, hh]
    | obj fields => simp [processOneMessage, hb, hh]

/-- The event used as the concrete witness input. -/
def msgEx : ProvisioningMessage :=
  { tenant_id := "11111111-1111-1111-1111-111111111111"
    tenant_slug := "acme-corp"
    timestamp := "2025-01-01T00:00:00Z" }

/-- The witness event's already-parsed, structurally valid payload. -/
def validBody : ParsedBody :=
  ParsedBody.obj
    { tenant_id := some "11111111-1111-1111-1111-111111111111"
      tenant_slug := some "acme-corp"
      timestamp := some "2025-01-01T00:00:00Z" }

/-- A tenant row whose collection is already provisioned. -/
def readyTenant : Tenant :=
  { freshTenant with
    opensearch_arn := some "arn:aws:aoss:us-east-1:625867133463:collection/abc123"
    opensearch_status := "ready" }

/-- Provision oracle in which every provider call succeeds and the first
poll already reports ACTIVE. -/
def oracleAllOk : ProvisionOracle :=
  { encSend := Except.ok ()
    netSend := Except.ok ()
    createSend := Except.ok { status := "CREATING" }
    dataSend := Except.ok ()
    polls := fun _ => PollResp.resp [activeDetail] }

/-- A run with no injected database faults. -/
def noFaults : OrchFaults :=
  { getTenantFault := false, commitFault := DbFault.noFault, markFault := false }

/-- C1 witness: a redelivered event for an already-`ready` tenant resolves
without error, issues no AWS calls, leaves the row unchanged, and its
message is deleted. -/
theorem c1_witness :
    (processTenantMessage msgEx (some readyTenant) oracleAllOk noFaults).result =
      Except.ok () ∧
    (processTenantMessage msgEx (some readyTenant) oracleAllOk noFaults).awsCalls =
      [] ∧
    (processTenantMessage msgEx (some readyTenant) oracleAllOk noFaults).db =
      some readyTenant ∧
    processOneMessage (some validBody) (fun _ => Except.ok ()) =
      (MessageFate.handledAndDeleted, true) := by
  have h := c1_reject_path_is_idempotent_noop msgEx (some readyTenant) oracleAllOk
    noFaults rfl
    (Or.inr ⟨readyTenant, rfl, Or.inr (Or.inl (by decide))⟩)
  exact ⟨h.1, h.2.2.1, h.2.1, h.2.2.2.2 (fun _ => Except.ok ()) validBody (by decide) rfl⟩

/-! ## Claim C5: failures are marked best-effort and rethrown -/

/-- C5: when the provisioning sequence or the ready-commit rejects, the
orchestrator rethrows the original error unchanged; the tenant row is
best-effort marked `failed` (when the marking query itself throws, its
error is swallowed — the original error still propagates and the row is
simply left as it was); and the consumer loop does not delete a message
whose handler rejects, leaving the event for redelivery. -/
theorem c5_failure_marked_and_rethrown (msg : ProvisioningMessage) (t : Tenant)
    (o : ProvisionOracle) (f : OrchFaults)
    (hfetch : f.getTenantFault = false)
    (hvalid : (validateTenantForProvisioning (some t)).isValid = true) :
    (∀ e, (createCollection msg.tenant_id t.slug o).1 = Except.error e →
      (processTenantMessage msg (some t) o f).result = Except.error e ∧
      (f.markFault = false → (processTenantMessage msg (some t) o f).db =
        some { t with opensearch_status := "failed" }) ∧
      (f.markFault = true → (processTenantMessage msg (some t) o f).db = some t)) ∧
    (∀ col e, (createCollection msg.tenant_id t.slug o).1 = Except.ok col →
      (updateTenantOpenSearch msg.tenant_id col.arn "ready" (some t)
          f.commitFault).result = Except.error e →
      (processTenantMessage msg (some t) o f).result = Except.error e ∧
      (f.markFault = false → (processTenantMessage msg (some t) o f).db =
        some { t with opensearch_status := "failed" }) ∧
      (f.markFault = true → (processTenantMessage msg (some t) o f).db = some t)) ∧
    (∀ (handler : ParsedBody → Except PErr Unit) (b : ParsedBody) (e : PErr),
      validateMessage b = true → handler b = Except.error e →
      processOneMessage (some b) handler = (MessageFate.keptForRedelivery, true)) := by
  refine ⟨?_, ?_, ?_⟩
  · intro e hce
    refine ⟨?_, ?_, ?_⟩
    · simp [processTenantMessage, hfetch, hvalid, hce]
    · intro hm
      simp [processTenantMessage, hfetch, hvalid, hce, markTenantOpenSearchFailed, hm]
    · intro hm
      simp [processTenantMessage, hfetch, hvalid, hce, markTenantOpenSearchFailed, hm]
  · intro col e hcol hue
    have hroll := update_error_rolled_back hue
    refine ⟨?_, ?_, ?_⟩
    · simp [processTenantMessage, hfetch, hvalid, hcol, hue]
    · intro hm
      simp [processTenantMessage, hfetch, hvalid, hcol, hue, hroll.1,
        markTenantOpenSearchFailed, hm]
    · intro hm
      simp [processTenantMessage, hfetch, hvalid, hcol, hue, hroll.1,
        markTenantOpenSearchFailed, hm]
  · intro handler b e hb hh
    cases b with
    | jsNull => simp [validateMessage] at hb
    | primFalsyNonNull => simp [processOneMessage, hb, hh]
    | primTruthy => simp [processOneMessage, hb, hh]
    | obj fields => simp [processOneMessage, hb, hh]

/-- Provision oracle whose encryption-policy send fails with a
non-conflict provider error. -/
def oracleEncFail : ProvisionOracle :=
  { encSend := Except.error { name := "InternalServerError", message := "boom" }
    netSend := Except.ok ()
    createSend := Except.ok { status := "CREATING" }
    dataSend := Except.ok ()
    polls := fun _ => PollResp.resp [activeDetail] }

/-- C5 witness: a concrete provisioning failure is rethrown unchanged,
the tenant row ends marked `failed`, and the message is kept. -/
theorem c5_witness :
    (processTenantMessage msgEx (some freshTenant) oracleEncFail noFaults).result =
      Except.error (PErr.aws { name := "InternalServerError", message := "boom" }) ∧
    (processTenantMessage msgEx (some freshTenant) oracleEncFail noFaults).db =
      some { freshTenant with opensearch_status := "failed" } ∧
    processOneMessage (some validBody)
      (fun _ => Except.error
        (PErr.aws { name := "InternalServerError", message := "boom" })) =
      (MessageFate.keptForRedelivery, true) := by
  have h := c5_failure_marked_and_rethrown msgEx freshTenant oracleEncFail noFaults
    rfl (by decide)
  have h1 := h.1 (PErr.aws { name := "InternalServerError", message := "boom" }) rfl
  exact ⟨h1.1, h1.2.1 rfl, h.2.2 _ validBody _ (by decide) rfl⟩

/-! ## Claim C9: monotonicity of the resource status -/

/-- A tenant row whose previous provisioning attempt already ended in
`failed` and which is eligible for another attempt. -/
def tenantFailedBefore : Tenant :=
  { freshTenant with opensearch_status := "failed" }

/-- C9 counterexample: `failed` is also written for a tenant whose
resource status at validation time was `failed`, not `uninitialized` — a
tenant whose earlier attempt failed passes validation again, and when the
retry fails too, `failed` is written again. -/
theorem c9_counterexample :
    (validateTenantForProvisioning (some tenantFailedBefore)).isValid = true ∧
    tenantFailedBefore.opensearch_status = "failed" ∧
    (processTenantMessage msgEx (some tenantFailedBefore) oracleEncFail
      noFaults).statusWrites = ["failed"] := by
  refine ⟨by decide, rfl, by rfl⟩

/-- C9 (amended): every resource-status value this subsystem durably
writes is `ready` or `failed` — `uninitialized` is never written, so a
`ready` tenant is never reset to `uninitialized`; and whenever the tenant
fetch succeeded, `failed` is only written for a tenant that passed
validation, whose status at validation time was therefore not `ready`
(it may have been `uninitialized` or a previous `failed`). -/
theorem c9_status_monotonic_amended (msg : ProvisioningMessage)
    (db : Option Tenant) (o : ProvisionOracle) (f : OrchFaults) :
    (∀ s ∈ (processTenantMessage msg db o f).statusWrites,
      s = "ready" ∨ s = "failed") ∧
    "uninitialized" ∉ (processTenantMessage msg db o f).statusWrites ∧
    (f.getTenantFault = false →
      "failed" ∈ (processTenantMessage msg db o f).statusWrites →
      ∃ t, db = some t ∧
        (validateTenantForProvisioning (some t)).isValid = true ∧
        t.opensearch_status ≠ "ready") := by
  have hw : (processTenantMessage msg db o f).statusWrites = [] ∨
      (processTenantMessage msg db o f).statusWrites = ["ready"] ∨
      ((processTenantMessage msg db o f).statusWrites = ["failed"] ∧
        (f.getTenantFault = true ∨ ∃ t, db = some t ∧
          (validateTenantForProvisioning (some t)).isValid = true)) := by
    by_cases hfetch : f.getTenantFault
    · rcases mark_writes_cases msg.tenant_id db f.markFault with hm | hm
      · exact Or.inl (by simp [processTenantMessage, hfetch, hm])
      · exact Or.inr (Or.inr
          ⟨by simp [processTenantMessage, hfetch, hm], Or.inl hfetch⟩)
    · by_cases hval : (validateTenantForProvisioning db).isValid = false
      · exact Or.inl (by simp [processTenantMessage, hfetch, hval])
      · have hvt : (validateTenantForProvisioning db).isValid = true := by
          cases h : (validateTenantForProvisioning db).isValid
          · exact absurd h hval
          · rfl
        cases db with
        | none => exact absurd validate_none_reject hval
        | some t =>
          cases hc : (createCollection msg.tenant_id t.slug o).1 with
          | error e =>
            rcases mark_writes_cases msg.tenant_id (some t) f.markFault with hm | hm
            · exact Or.inl
                (by simp [processTenantMessage, hfetch, hvt, hc, hm])
            · exact Or.inr (Or.inr
                ⟨by simp [processTenantMessage, hfetch, hvt, hc, hm],
                  Or.inr ⟨t, rfl, hvt⟩⟩)
          | ok col =>
            cases hu : (updateTenantOpenSearch msg.tenant_id col.arn "ready"
                (some t) f.commitFault).result with
            | error e =>
              have hroll := update_error_rolled_back hu
              rcases mark_writes_cases msg.tenant_id
                  (updateTenantOpenSearch msg.tenant_id col.arn "ready" (some t)
                    f.commitFault).db f.markFault with hm | hm
              · exact Or.inl (by
                  simp [processTenantMessage, hfetch, hvt, hc, hu, hroll.2, hm])
              · exact Or.inr (Or.inr
                  ⟨by simp [processTenantMessage, hfetch, hvt, hc, hu,
                      hroll.2, hm],
                    Or.inr ⟨t, rfl, hvt⟩⟩)
            | ok t2 =>
              have hww := update_ok_writes hu
              exact Or.inr (Or.inl
                (by simp [processTenantMessage, hfetch, hvt, hc, hu, hww]))
  refine ⟨?_, ?_, ?_⟩
  · intro s hs
    rcases hw with h | h | ⟨h, _⟩
    · rw [h] at hs
      cases hs
    · rw [h] at hs
      simp only [List.mem_singleton] at hs
      exact Or.inl hs
    · rw [h] at hs
      simp only [List.mem_singleton] at hs
      exact Or.inr hs
  · intro hmem
    rcases hw with h | h | ⟨h, _⟩ <;> rw [h] at hmem <;> simp at hmem
  · intro hfetch hmem
    rcases hw with h | h | ⟨h, hor⟩
    · rw [h] at hmem
      cases hmem
    · rw [h] at hmem
      simp at hmem
    · rcases hor with hb | ⟨t, hdb, hvt⟩
      · rw [hfetch] at hb
        cases hb
      · exact ⟨t, hdb, hvt, ((validate_some_isValid_iff t).mp hvt).2.2⟩

/-- C9 amended witness: at the concrete retried-after-failure run, the
`failed` write is accompanied by a passed validation whose tenant status
was not `ready`. -/
theorem c9_amended_witness :
    ∃ t, some tenantFailedBefore = some t ∧
      (validateTenantForProvisioning (some t)).isValid = true ∧
      t.opensearch_status ≠ "ready" :=
  (c9_status_monotonic_amended msgEx (some tenantFailedBefore) oracleEncFail
    noFaults).2.2 rfl (by decide)

/-! ## Claim C10: the collection is named from the database slug -/

theorem createCollection_create_call_shape (tenantId tenantSlug : String)
    (o : ProvisionOracle) :
    ∀ n tid2 slug2,
      AwsCall.collectionCreate n tid2 slug2 ∈ (createCollection tenantId tenantSlug o).2 →
      n = getCollectionName tenantSlug ∧ tid2 = tenantId ∧ slug2 = tenantSlug := by
  intro n tid2 slug2 hmem
  cases he : createEncryptionPolicy (getCollectionName tenantSlug) o.encSend with
  | error e => simp [createCollection, he] at hmem
  | ok u1 =>
    cases hn : createNetworkPolicy (getCollectionName tenantSlug) o.netSend with
    | error e => simp [createCollection, he, hn] at hmem
    | ok u2 =>
      cases hcs : o.createSend with
      | error e =>
        simp [createCollection, he, hn, hcs] at hmem
        exact hmem
      | ok d =>
        cases hda : createDataAccessPolicy (getCollectionName tenantSlug)
            tenantId o.dataSend with
        | error e =>
          simp [createCollection, he, hn, hcs, hda] at hmem
          exact hmem
        | ok u3 =>
          cases hww : (waitForCollectionActive (getCollectionName tenantSlug)
              o.polls 60).1 with
          | error e2 =>
            simp [createCollection, he, hn, hcs, hda, hww, List.mem_replicate]
              at hmem
            exact hmem
          | ok c2 =>
            simp [createCollection, he, hn, hcs, hda, hww, List.mem_replicate]
              at hmem
            exact hmem

theorem processTenantMessage_awsCalls_cases (msg : ProvisioningMessage)
    (db : Option Tenant) (o : ProvisionOracle) (f : OrchFaults) :
    (processTenantMessage msg db o f).awsCalls = [] ∨
    ∃ t, db = some t ∧
      (processTenantMessage msg db o f).awsCalls =
        (createCollection msg.tenant_id t.slug o).2 := by
  by_cases hfetch : f.getTenantFault
  · exact Or.inl (by simp [processTenantMessage, hfetch])
  · by_cases hval : (validateTenantForProvisioning db).isValid = false
    · exact Or.inl (by simp [processTenantMessage, hfetch, hval])
    · have hvt : (validateTenantForProvisioning db).isValid = true := by
        cases h : (validateTenantForProvisioning db).isValid
        · exact absurd h hval
        · rfl
      cases db with
      | none => exact absurd validate_none_reject hval
      | some t =>
        refine Or.inr ⟨t, rfl, ?_⟩
        cases hc : (createCollection msg.tenant_id t.slug o).1 with
        | error e => simp [processTenantMessage, hfetch, hvt, hc]
        | ok col =>
          cases hu : (updateTenantOpenSearch msg.tenant_id col.arn "ready"
              (some t) f.commitFault).result with
          | error e => simp [processTenantMessage, hfetch, hvt, hc, hu]
          | ok t2 => simp [processTenantMessage, hfetch, hvt, hc, hu]

theorem processTenantMessage_awsCalls_valid (msg : ProvisioningMessage)
    (t : Tenant) (o : ProvisionOracle) (f : OrchFaults)
    (hfetch : f.getTenantFault = false)
    (hvt : (validateTenantForProvisioning (some t)).isValid = true) :
    (processTenantMessage msg (some t) o f).awsCalls =
      (createCollection msg.tenant_id t.slug o).2 := by
  cases hc : (createCollection msg.tenant_id t.slug o).1 with
  | error e => simp [processTenantMessage, hfetch, hvt, hc]
  | ok col =>
    cases hu : (updateTenantOpenSearch msg.tenant_id col.arn "ready"
        (some t) f.commitFault).result with
    | error e => simp [processTenantMessage, hfetch, hvt, hc, hu]
    | ok t2 => simp [processTenantMessage, hfetch, hvt, hc, hu]

theorem createCollection_issues_create_call (tenantId tenantSlug : String)
    (o : ProvisionOracle)
    (henc : createEncryptionPolicy (getCollectionName tenantSlug) o.encSend =
      Except.ok ())
    (hnet : createNetworkPolicy (getCollectionName tenantSlug) o.netSend =
      Except.ok ()) :
    AwsCall.collectionCreate (getCollectionName tenantSlug) tenantId tenantSlug ∈
      (createCollection tenantId tenantSlug o).2 := by
  cases hcs : o.createSend with
  | error e => simp [createCollection, henc, hnet, hcs]
  | ok d =>
    cases hda : createDataAccessPolicy (getCollectionName tenantSlug)
        tenantId o.dataSend with
    | error e => simp [createCollection, henc, hnet, hcs, hda]
    | ok u3 =>
      cases hww : (waitForCollectionActive (getCollectionName tenantSlug)
          o.polls 60).1 with
      | error e2 => simp [createCollection, henc, hnet, hcs, hda, hww]
      | ok c2 => simp [createCollection, henc, hnet, hcs, hda, hww]

/-- C10: the outcome of `processTenantMessage` does not depend on the
event payload's `tenant_slug` (or `timestamp`) at all — they are used
only for logging; every `CreateCollectionCommand` issued names the
collection `accreda-` + the slug of the tenant row fetched from the
database and tags it with that same database slug; and whenever a
validated run reaches the creation step (the two preceding policy steps
resolve), such a call is in fact issued. -/
theorem c10_collection_named_from_db_slug :
    (∀ tid s1 s2 ts1 ts2 db o f,
      processTenantMessage ⟨tid, s1, ts1⟩ db o f =
        processTenantMessage ⟨tid, s2, ts2⟩ db o f) ∧
    (∀ msg db o f n tid2 slug2,
      AwsCall.collectionCreate n tid2 slug2 ∈
        (processTenantMessage msg db o f).awsCalls →
      ∃ t, db = some t ∧ n = getCollectionName t.slug ∧
        tid2 = msg.tenant_id ∧ slug2 = t.slug) ∧
    (∀ msg t o f, f.getTenantFault = false →
      (validateTenantForProvisioning (some t)).isValid = true →
      createEncryptionPolicy (getCollectionName t.slug) o.encSend = Except.ok () →
      createNetworkPolicy (getCollectionName t.slug) o.netSend = Except.ok () →
      AwsCall.collectionCreate (getCollectionName t.slug) msg.tenant_id t.slug ∈
        (processTenantMessage msg (some t) o f).awsCalls) := by
  refine ⟨fun _ _ _ _ _ _ _ _ => rfl, ?_, ?_⟩
  · intro msg db o f n tid2 slug2 hmem
    rcases processTenantMessage_awsCalls_cases msg db o f with h | ⟨t, hdb, h⟩
    · rw [h] at hmem
      cases hmem
    · rw [h] at hmem
      obtain ⟨hn, htid, hslug⟩ :=
        createCollection_create_call_shape msg.tenant_id t.slug o n tid2 slug2 hmem
      exact ⟨t, hdb, hn, htid, hslug⟩
  · intro msg t o f hfetch hvt henc hnet
    rw [processTenantMessage_awsCalls_valid msg t o f hfetch hvt]
    exact createCollection_issues_create_call msg.tenant_id t.slug o henc hnet

/-- C10 witness: a concrete validated run issues the creation call named
after the database slug. -/
theorem c10_witness :
    AwsCall.collectionCreate (getCollectionName freshTenant.slug)
        msgEx.tenant_id freshTenant.slug ∈
      (processTenantMessage msgEx (some freshTenant) oracleAllOk
        noFaults).awsCalls :=
  c10_collection_named_from_db_slug.2.2 msgEx freshTenant oracleAllOk noFaults
    rfl (by decide) rfl rfl
